import Mathlib

/-!
Verification of the PodcastHub backend (src/backend/server.py, src/backend/views.py).

The FastAPI handlers are embedded as pure Lean functions.  The MongoDB
collections (`db.users`, `db.podcasts`, `db.episodes`) are modelled as Lean
lists in insertion order; `find_one` becomes `List.find?`, `insert_one`
becomes appending to the list.  Wall-clock instants and timedeltas are
modelled as natural numbers of seconds.  Fresh `uuid.uuid4()` values are
passed in as explicit arguments.  An `HTTPException` is an `Except` error
carrying the status code and the detail string.
-/

namespace Backend

/-- `HTTPException(status_code, detail)` from FastAPI. -/
structure HErr where
  status : Nat
  detail : String
deriving DecidableEq, Repr

/-- Idealised bcrypt digest (`passlib` `CryptContext(schemes=["bcrypt"])`).
A digest is a function of the hashed plaintext and the random salt; the
idealisation is collision-free: `verify` succeeds exactly when the plaintext
that was hashed is supplied again. -/
structure Hash where
  hashed : String
  salt : Nat
deriving DecidableEq, Repr

/-- `get_password_hash(password)` (server.py line 113); the bcrypt salt drawn
inside `pwd_context.hash` is an explicit argument. -/
def get_password_hash (password : String) (salt : Nat) : Hash :=
  { hashed := password, salt := salt }

/-- `verify_password(plain_password, hashed_password)` (server.py line 110). -/
def verify_password (plain_password : String) (hashed_password : Hash) : Bool :=
  hashed_password.hashed == plain_password

/-- The `User` pydantic model (server.py lines 57-63). -/
structure User where
  id : String
  email : String
  username : String
  password_hash : Hash
  role : String
  created_at : Nat
deriving DecidableEq, Repr

/-- The `UserCreate` request model (server.py lines 65-69). -/
structure UserCreate where
  email : String
  username : String
  password : String
  role : String
deriving DecidableEq, Repr

/-- The `UserResponse` model (server.py lines 75-80): the public projection
of a `User`, without the password hash. -/
structure UserResponse where
  id : String
  email : String
  username : String
  role : String
  created_at : Nat
deriving DecidableEq, Repr

/-- `UserResponse(**user.dict())`: drop the password hash. -/
def toUserResponse (u : User) : UserResponse :=
  { id := u.id, email := u.email, username := u.username,
    role := u.role, created_at := u.created_at }

/-- The `Podcast` pydantic model (server.py lines 82-89). -/
structure Podcast where
  id : String
  title : String
  description : String
  creator_id : String
  cover_image : Option String
  category : String
  created_at : Nat
deriving DecidableEq, Repr

/-- The `Episode` pydantic model (server.py lines 96-103). -/
structure Episode where
  id : String
  podcast_id : String
  title : String
  description : String
  audio_file : String
  duration : Option Nat
  created_at : Nat
deriving DecidableEq, Repr

/-- `SECRET_KEY` (server.py line 29). -/
def SECRET_KEY : String := "your-secret-key-change-in-production"

/-- `ACCESS_TOKEN_EXPIRE_MINUTES` (server.py line 31). -/
def ACCESS_TOKEN_EXPIRE_MINUTES : Nat := 30

/-- A decoded JWT payload.  The only claims the code ever writes or reads are
`"sub"` (set by `login`, read by `get_current_user`) and `"exp"` (set by
`create_access_token`), so the payload dict is modelled by those two fields. -/
structure JwtPayload where
  sub : Option String
  exp : Nat
deriving DecidableEq, Repr

/-- A signed JWT: `jwt.encode(payload, key, algorithm)` is modelled as the
payload together with the signing key the HMAC signature commits to. -/
structure Jwt where
  payload : JwtPayload
  key : String
deriving DecidableEq, Repr

/-- `create_access_token(data, expires_delta)` (server.py lines 116-124).
`data` is modelled by its `"sub"` entry, `now` is `datetime.utcnow()` at the
call, and `expires_delta` is in seconds.  Python truthiness: a zero
`timedelta` is falsy, so `some 0` takes the `else` branch exactly as the
source's `if expires_delta:` does. -/
def create_access_token (sub : Option String) (now : Nat)
    (expires_delta : Option Nat) : Jwt :=
  let expire := match expires_delta with
    | some d => if d == 0 then now + 15 * 60 else now + d
    | none => now + 15 * 60
  { payload := { sub := sub, exp := expire }, key := SECRET_KEY }

/-- `jwt.decode(token, key, algorithms)` as used in `get_current_user`
(server.py line 128): fails (raises `PyJWTError`) on a signature made with a
different key, or on an expired `exp` claim.  PyJWT with zero leeway treats
the token as expired exactly when `exp < now`. -/
def jwt_decode (tok : Jwt) (key : String) (now : Nat) : Option JwtPayload :=
  if tok.key == key && decide (now ≤ tok.payload.exp) then some tok.payload
  else none

/-- `get_current_user` (server.py lines 126-138).  `users` is the `db.users`
collection, `now` the verification-time wall clock. -/
def get_current_user (users : List User) (tok : Jwt) (now : Nat) :
    Except HErr User :=
  match jwt_decode tok SECRET_KEY now with
  | none => .error ⟨401, "Invalid authentication credentials"⟩
  | some payload =>
    match payload.sub with
    | none => .error ⟨401, "Invalid authentication credentials"⟩
    | some email =>
      match users.find? (fun u => u.email == email) with
      | none => .error ⟨401, "User not found"⟩
      | some user => .ok user

/-- `register` (server.py lines 141-158).  `newId` is the fresh
`uuid.uuid4()` for the user id, `salt` the bcrypt salt, `now` the creation
timestamp.  Returns the response plus the new `db.users` state. -/
def register (users : List User) (user_data : UserCreate) (newId : String)
    (salt : Nat) (now : Nat) : Except HErr UserResponse × List User :=
  match users.find? (fun u => u.email == user_data.email) with
  | some _ => (.error ⟨400, "Email already registered"⟩, users)
  | none =>
    let user : User :=
      { id := newId, email := user_data.email, username := user_data.username,
        password_hash := get_password_hash user_data.password salt,
        role := user_data.role, created_at := now }
    (.ok (toUserResponse user), users ++ [user])

/-- The body of `login`'s success response (server.py lines 170-174). -/
structure LoginOut where
  access_token : Jwt
  token_type : String
  user : UserResponse
deriving DecidableEq, Repr

/-- `login` (server.py lines 160-174).  `now` is `datetime.utcnow()` at token
issuance. -/
def login (users : List User) (email password : String) (now : Nat) :
    Except HErr LoginOut :=
  match users.find? (fun u => u.email == email) with
  | none => .error ⟨401, "Incorrect email or password"⟩
  | some user =>
    if verify_password password user.password_hash then
      .ok { access_token := create_access_token (some user.email) now
              (some (ACCESS_TOKEN_EXPIRE_MINUTES * 60)),
            token_type := "bearer", user := toUserResponse user }
    else .error ⟨401, "Incorrect email or password"⟩

/-- `create_podcast` (server.py lines 181-194).  `newId` is the fresh
`uuid.uuid4()` for the podcast id.  Returns the response plus the new
`db.podcasts` state. -/
def create_podcast (podcasts : List Podcast) (current_user : User)
    (title description category : String) (newId : String) (now : Nat) :
    Except HErr Podcast × List Podcast :=
  if current_user.role != "podcaster" then
    (.error ⟨403, "Only podcasters can create podcasts"⟩, podcasts)
  else
    let podcast : Podcast :=
      { id := newId, title := title, description := description,
        creator_id := current_user.id, cover_image := none,
        category := category, created_at := now }
    (.ok podcast, podcasts ++ [podcast])

/-- Python's `str.lower()` (ASCII case folding, which covers every string
the code compares). -/
def lowerStr (s : String) : String :=
  String.mk (s.data.map Char.toLower)

/-- Python's `str.split('.')`: split at every dot, keeping empty pieces;
never returns an empty list. -/
def splitOnDot : List Char → List (List Char)
  | [] => [[]]
  | c :: cs =>
    let rest := splitOnDot cs
    if c = '.' then [] :: rest
    else
      match rest with
      | [] => [[c]]
      | piece :: pieces => (c :: piece) :: pieces

/-- `audio_file.filename.split('.')[-1]` (server.py line 234): `[-1]` takes
the last piece, so a dot-free filename is its own "extension". -/
def file_extension (filename : String) : String :=
  String.mk ((splitOnDot filename.data).getLastD [])

/-- The episode-side state touched by `create_episode`: the `db.episodes`
collection and the `UPLOAD_DIR` blob store (storage key to byte content). -/
structure EpState where
  episodes : List Episode
  files : List (String × List Nat)
deriving DecidableEq, Repr

/-- `create_episode` (server.py lines 217-253).  `uploadName` is
`audio_file.filename`, `uploadBytes` the full content of the upload,
`fileUuid` and `epId` the two fresh `uuid.uuid4()` values (storage key stem
and episode id).  Returns the response plus the new episode/file state. -/
def create_episode (podcasts : List Podcast) (st : EpState)
    (current_user : User) (podcast_id title description : String)
    (uploadName : String) (uploadBytes : List Nat)
    (fileUuid epId : String) (now : Nat) : Except HErr Episode × EpState :=
  if current_user.role != "podcaster" then
    (.error ⟨403, "Only podcasters can upload episodes"⟩, st)
  else
    match podcasts.find? (fun p =>
        p.id == podcast_id && p.creator_id == current_user.id) with
    | none => (.error ⟨404, "Podcast not found or not owned by user"⟩, st)
    | some _ =>
      let ext := file_extension uploadName
      if !(["mp3", "wav", "ogg"].contains (lowerStr ext)) then
        (.error ⟨400, "Only MP3, WAV, and OGG files are supported"⟩, st)
      else
        let filename := fileUuid ++ "." ++ ext
        let episode : Episode :=
          { id := epId, podcast_id := podcast_id, title := title,
            description := description, audio_file := filename,
            duration := none, created_at := now }
        (.ok episode,
          { episodes := st.episodes ++ [episode],
            files := st.files ++ [(filename, uploadBytes)] })

/-- A document of the Django view's `users_collection` (views.py line 20):
the inserted dict has exactly the fields `email` and `password`. -/
structure VUser where
  email : String
  password : String
deriving DecidableEq, Repr

/-- Python falsiness of `data.get(...)`: absent (`None`) or the empty
string. -/
def falsyStr : Option String → Bool
  | none => true
  | some s => s == ""

/-- `register_user` (views.py lines 7-26), for a POST request whose JSON body
parsed; `email` and `password` are `data.get('email')` / `data.get('password')`.
Returns `(status, message)` plus the new `users_collection` state. -/
def register_user (users : List VUser) (email password : Option String) :
    (Nat × String) × List VUser :=
  if falsyStr email || falsyStr password then
    ((400, "Email and password required"), users)
  else
    let e := email.getD ""
    let p := password.getD ""
    match users.find? (fun u => u.email == e) with
    | some _ => ((409, "User already exists"), users)
    | none => ((201, "Registration successful"), users ++ [⟨e, p⟩])

/-! ### Search (server.py lines 273-295)

`search` sends the raw query string to MongoDB as
`{"$regex": q, "$options": "i"}`: the query is interpreted as a
case-insensitive, unanchored regular expression, not as a literal substring.
The fragment of that regex language needed here is embedded exactly: a
pattern that is a sequence of literal characters and `.` (match-any-char)
atoms.  Queries using any other PCRE metacharacter fall outside the embedded
fragment and `parsePat` returns `none` for them (the model is partial there,
not wrong). -/

/-- One atom of the embedded regex fragment. -/
inductive RAtom where
  | dot
  | lit (c : Char)
deriving DecidableEq, Repr

/-- PCRE metacharacters (plus the escape character) outside the embedded
fragment; `0x7b`/`0x7d` are the curly braces. -/
def unsupportedMeta : List Char :=
  ['*', '+', '?', '|', '(', ')', '[', ']', Char.ofNat 0x7b, Char.ofNat 0x7d,
   '^', '$', '\\']

/-- Parse a query string into the embedded regex fragment: `.` is the
match-any atom, metacharacters are unsupported, everything else is a literal
character. -/
def parsePat : List Char → Option (List RAtom)
  | [] => some []
  | c :: cs =>
    if c = '.' then (parsePat cs).map (fun p => RAtom.dot :: p)
    else if unsupportedMeta.contains c then none
    else (parsePat cs).map (fun p => RAtom.lit c :: p)

/-- Does one atom match one character? -/
def atomMatch : RAtom → Char → Bool
  | .dot, _ => true
  | .lit c, d => c == d

/-- Does the pattern match a prefix of the text? -/
def patMatchHere : List RAtom → List Char → Bool
  | [], _ => true
  | _ :: _, [] => false
  | a :: pat, c :: cs => atomMatch a c && patMatchHere pat cs

/-- Unanchored regex search: does the pattern match at some position of the
text? -/
def patSearch (pat : List RAtom) : List Char → Bool
  | [] => patMatchHere pat []
  | c :: cs => patMatchHere pat (c :: cs) || patSearch pat cs

/-- Mongo's `$options: "i"` case-insensitivity: the pattern is parsed from
the lowercased query (see `search`), and the field text is lowercased before
matching. -/
def textMatches (pat : List RAtom) (s : String) : Bool :=
  patSearch pat (lowerStr s).data

/-- The `$or` filter over podcast documents (server.py lines 277-281). -/
def podcastPred (pat : List RAtom) (p : Podcast) : Bool :=
  textMatches pat p.title || textMatches pat p.description ||
    textMatches pat p.category

/-- The `$or` filter over episode documents (server.py lines 286-289). -/
def episodePred (pat : List RAtom) (e : Episode) : Bool :=
  textMatches pat e.title || textMatches pat e.description

/-- The body of `search`'s response (server.py lines 292-295). -/
structure SearchOut where
  podcasts : List Podcast
  episodes : List Episode
deriving DecidableEq, Repr

/-- `search` (server.py lines 273-295): filter each collection by the
case-insensitive regex, `.to_list(50)` caps each result list at 50.
`none` when the query uses a regex construct outside the embedded
fragment. -/
def search (podcasts : List Podcast) (episodes : List Episode) (q : String) :
    Option SearchOut :=
  (parsePat (lowerStr q).data).map fun pat =>
    { podcasts := (podcasts.filter (podcastPred pat)).take 50,
      episodes := (episodes.filter (episodePred pat)).take 50 }

/-- Case-insensitive literal substring containment on character lists, the
predicate the specification describes ("case-insensitive substring match ...
pure substring predicate per field"). -/
def containsSubCL (needle : List Char) : List Char → Bool
  | [] => needle.isEmpty
  | c :: cs => needle.isPrefixOf (c :: cs) || containsSubCL needle cs

/-- Modelled from the spec: the spec's per-field search predicate, literal
case-insensitive substring containment of the query in the field. -/
def specSubstringCI (q s : String) : Bool :=
  containsSubCL (lowerStr q).data (lowerStr s).data

/-- Modelled from the spec: the spec's show-level search predicate — the
query is a substring of the title, the description, or the category. -/
def specShowPred (q : String) (p : Podcast) : Bool :=
  specSubstringCI q p.title || specSubstringCI q p.description ||
    specSubstringCI q p.category

/-! ### Sample data for concrete witnesses -/

/-- A stored podcaster account. -/
def uAlice : User :=
  { id := "u-alice", email := "alice@example.com", username := "alice",
    password_hash := get_password_hash "correct-horse" 7,
    role := "podcaster", created_at := 0 }

/-- A second stored podcaster account. -/
def uBob : User :=
  { id := "u-bob", email := "bob@example.com", username := "bob",
    password_hash := get_password_hash "bob-pass" 3,
    role := "podcaster", created_at := 0 }

/-- A stored listener account. -/
def uCarol : User :=
  { id := "u-carol", email := "carol@example.com", username := "carol",
    password_hash := get_password_hash "battery-staple" 9,
    role := "listener", created_at := 0 }

/-- A show owned by `uAlice`. -/
def showAlice : Podcast :=
  { id := "show-1", title := "Morning Tea", description := "daily news",
    creator_id := "u-alice", cover_image := none, category := "News",
    created_at := 1 }

/-- A show whose title is `"abc"` and whose other searched fields avoid the
letter sequences of the sample queries. -/
def pcAbc : Podcast :=
  { id := "p-abc", title := "abc", description := "zzz",
    creator_id := "u-alice", cover_image := none, category := "Music",
    created_at := 2 }

/-- A show in category `"Technology"`. -/
def pcTech : Podcast :=
  { id := "p-tech", title := "Gadget Hour", description := "reviews",
    creator_id := "u-alice", cover_image := none, category := "Technology",
    created_at := 3 }

end Backend

namespace Backend

/-! ### Claims -/

/-- C1: a token issued by `create_access_token` for subject `S` and verified
by `get_current_user` strictly before `t0 + ttl` resolves to the stored user
found under email `S`; verified strictly after `t0 + ttl` it fails with
status 401. -/
theorem token_ttl_roundtrip (users : List User) (S : String) (u : User)
    (t0 ttl : Nat) (httl : 0 < ttl)
    (hu : users.find? (fun v => v.email == S) = some u) :
    (∀ now, now < t0 + ttl →
      get_current_user users (create_access_token (some S) t0 (some ttl)) now
        = .ok u)
    ∧ (∀ now, t0 + ttl < now →
      get_current_user users (create_access_token (some S) t0 (some ttl)) now
        = .error ⟨401, "Invalid authentication credentials"⟩) := by
  have h0 : (ttl == 0) = false := by
    cases ttl with
    | zero => exact absurd httl (lt_irrefl 0)
    | succ n => rfl
  have htok : create_access_token (some S) t0 (some ttl)
      = { payload := { sub := some S, exp := t0 + ttl }, key := SECRET_KEY } := by
    simp [create_access_token, h0]
  constructor
  · intro now hnow
    have hv : jwt_decode (create_access_token (some S) t0 (some ttl))
        SECRET_KEY now = some { sub := some S, exp := t0 + ttl } := by
      rw [htok]
      simp [jwt_decode]
      omega
    simp [get_current_user, hv, hu]
  · intro now hnow
    have hv : jwt_decode (create_access_token (some S) t0 (some ttl))
        SECRET_KEY now = none := by
      rw [htok]
      simp [jwt_decode]
      omega
    simp [get_current_user, hv]

/-- C1 witness: a token for `alice@example.com` issued at 0 with ttl 60 s
resolves to `uAlice` at time 30 and fails with 401 at time 100. -/
theorem token_ttl_roundtrip_witness :
    get_current_user [uAlice]
        (create_access_token (some "alice@example.com") 0 (some 60)) 30
      = .ok uAlice
    ∧ get_current_user [uAlice]
        (create_access_token (some "alice@example.com") 0 (some 60)) 100
      = .error ⟨401, "Invalid authentication credentials"⟩ := by
  have h := token_ttl_roundtrip [uAlice] "alice@example.com" uAlice 0 60
    (by decide) (by decide)
  exact ⟨h.1 30 (by decide), h.2 100 (by decide)⟩

/-- C2: for an acting user with role podcaster, `create_episode` answers 404
("Podcast not found or not owned by user") exactly when no stored show has
both the requested id and the acting user's id as creator; when such a show
exists the result is never that 404 — in particular an existing show owned
by a different podcaster yields 404, not 403. -/
theorem create_episode_ownership_404 (podcasts : List Podcast) (st : EpState)
    (u : User) (pid title description upName : String) (upBytes : List Nat)
    (fileUuid epId : String) (now : Nat)
    (hrole : u.role = "podcaster") :
    ((∀ p ∈ podcasts, ¬(p.id = pid ∧ p.creator_id = u.id)) →
      create_episode podcasts st u pid title description upName upBytes
          fileUuid epId now
        = (.error ⟨404, "Podcast not found or not owned by user"⟩, st))
    ∧ ((∃ p ∈ podcasts, p.id = pid ∧ p.creator_id = u.id) →
      (create_episode podcasts st u pid title description upName upBytes
          fileUuid epId now).1
        ≠ .error ⟨404, "Podcast not found or not owned by user"⟩) := by
  have hr : (u.role != "podcaster") = false := by simp [hrole]
  constructor
  · intro hnone
    have hfind : podcasts.find?
        (fun p => p.id == pid && p.creator_id == u.id) = none := by
      refine List.find?_eq_none.mpr (fun p hp => ?_)
      simpa using hnone p hp
    simp [create_episode, hr, hfind]
  · intro hex
    have hfind : (podcasts.find?
        (fun p => p.id == pid && p.creator_id == u.id)).isSome := by
      refine List.find?_isSome.mpr ?_
      obtain ⟨p, hp, hid, hcr⟩ := hex
      exact ⟨p, hp, by simp [hid, hcr]⟩
    obtain ⟨pc, hpc⟩ := Option.isSome_iff_exists.mp hfind
    simp only [create_episode, hr, Bool.false_eq_true, if_false, hpc]
    split <;> simp

/-- C2 witness: `uBob` (a podcaster) attaching an episode to `showAlice`,
which exists but is owned by `uAlice`, gets the 404 error and no state
change. -/
theorem create_episode_ownership_404_witness :
    create_episode [showAlice] ⟨[], []⟩ uBob "show-1" "t" "d" "track.mp3"
        [1, 2] "f-1" "e-1" 9
      = (.error ⟨404, "Podcast not found or not owned by user"⟩, ⟨[], []⟩) := by
  have h := create_episode_ownership_404 [showAlice] ⟨[], []⟩ uBob "show-1"
    "t" "d" "track.mp3" [1, 2] "f-1" "e-1" 9 (by decide)
  exact h.1 (by decide)

/-- C3: a login with an email absent from the store and a login with a
present email but a password failing verification produce the very same
failure: status 401, detail "Incorrect email or password". -/
theorem login_error_indistinguishable (users : List User)
    (e1 p1 e2 p2 : String) (u : User) (now1 now2 : Nat)
    (h1 : users.find? (fun v => v.email == e1) = none)
    (h2 : users.find? (fun v => v.email == e2) = some u)
    (h3 : verify_password p2 u.password_hash = false) :
    login users e1 p1 now1 = .error ⟨401, "Incorrect email or password"⟩
    ∧ login users e2 p2 now2 = .error ⟨401, "Incorrect email or password"⟩ := by
  constructor
  · simp [login, h1]
  · simp [login, h2, h3]

/-- C3 witness: against a store holding only `uAlice`, the unknown email
`nobody@example.com` and the known email with a wrong password fail with the
identical error. -/
theorem login_error_indistinguishable_witness :
    login [uAlice] "nobody@example.com" "whatever" 5
      = .error ⟨401, "Incorrect email or password"⟩
    ∧ login [uAlice] "alice@example.com" "wrong-password" 6
      = .error ⟨401, "Incorrect email or password"⟩ :=
  login_error_indistinguishable [uAlice] "nobody@example.com" "whatever"
    "alice@example.com" "wrong-password" uAlice 5 6 (by decide) (by decide)
    (by decide)

/-- C4: the Django registration view (views.py) persists the plaintext
password verbatim: registering `dave@example.com` with password `hunter2`
against an empty store inserts a document whose `password` field is the
plaintext `hunter2` — no hash is ever computed.  (A second registration of
the same email does fail with 409 and leaves the store unchanged.) -/
theorem register_user_stores_plaintext :
    register_user [] (some "dave@example.com") (some "hunter2")
      = ((201, "Registration successful"),
         [{ email := "dave@example.com", password := "hunter2" }])
    ∧ register_user [{ email := "dave@example.com", password := "hunter2" }]
        (some "dave@example.com") (some "other")
      = ((409, "User already exists"),
         [{ email := "dave@example.com", password := "hunter2" }]) := by
  decide

/-- C5: once the role and ownership checks of `create_episode` have passed,
the upload step rejects the file with status 400 and changes nothing when
the lowercased extension is not one of mp3/wav/ogg, and otherwise stores the
full byte content under the key `fileUuid ++ "." ++ ext`, returning that key
as the episode's audio reference; whenever the freshly drawn `fileUuid` does
not reproduce the client's own stem, that reference differs from the
supplied filename. -/
theorem create_episode_upload_gate (podcasts : List Podcast) (st : EpState)
    (u : User) (pid title description upName : String) (upBytes : List Nat)
    (fileUuid epId : String) (now : Nat)
    (hrole : u.role = "podcaster")
    (hfind : (podcasts.find?
        (fun p => p.id == pid && p.creator_id == u.id)).isSome = true) :
    ((["mp3", "wav", "ogg"] : List String).contains
        (lowerStr (file_extension upName)) = false →
      create_episode podcasts st u pid title description upName upBytes
          fileUuid epId now
        = (.error ⟨400, "Only MP3, WAV, and OGG files are supported"⟩, st))
    ∧ ((["mp3", "wav", "ogg"] : List String).contains
        (lowerStr (file_extension upName)) = true →
      ∃ ep : Episode,
        create_episode podcasts st u pid title description upName upBytes
            fileUuid epId now
          = (.ok ep, { episodes := st.episodes ++ [ep],
                       files := st.files ++ [(ep.audio_file, upBytes)] })
        ∧ ep.audio_file = fileUuid ++ "." ++ file_extension upName
        ∧ (upName ≠ fileUuid ++ "." ++ file_extension upName →
            ep.audio_file ≠ upName)) := by
  have hr : (u.role != "podcaster") = false := by simp [hrole]
  obtain ⟨pc, hpc⟩ := Option.isSome_iff_exists.mp hfind
  constructor
  · intro hext
    simp only [create_episode, hr, Bool.false_eq_true, if_false, hpc, hext,
      Bool.not_false, if_true]
  · intro hext
    refine ⟨{ id := epId, podcast_id := pid, title := title,
              description := description,
              audio_file := fileUuid ++ "." ++ file_extension upName,
              duration := none, created_at := now }, ?_, rfl, ?_⟩
    · simp only [create_episode, hr, Bool.false_eq_true, if_false, hpc, hext,
        Bool.not_true, if_false]
    · intro hfresh
      simpa using fun h => hfresh h.symm

/-- C5 witness: with `uAlice` acting on her own show, `track.exe` is
rejected with 400 and nothing persisted, while `track.MP3` is accepted and
stored under `a1b2c3d4.MP3`, a reference distinct from `track.MP3`. -/
theorem create_episode_upload_gate_witness :
    create_episode [showAlice] ⟨[], []⟩ uAlice "show-1" "t" "d" "track.exe"
        [7] "a1b2c3d4" "e-9" 4
      = (.error ⟨400, "Only MP3, WAV, and OGG files are supported"⟩, ⟨[], []⟩)
    ∧ ∃ ep : Episode,
        create_episode [showAlice] ⟨[], []⟩ uAlice "show-1" "t" "d"
            "track.MP3" [7] "a1b2c3d4" "e-9" 4
          = (.ok ep, { episodes := [ep], files := [(ep.audio_file, [7])] })
        ∧ ep.audio_file = "a1b2c3d4" ++ "." ++ file_extension "track.MP3"
        ∧ ep.audio_file ≠ "track.MP3" := by
  have h1 := create_episode_upload_gate [showAlice] ⟨[], []⟩ uAlice "show-1"
    "t" "d" "track.exe" [7] "a1b2c3d4" "e-9" 4 (by decide) (by decide)
  have h2 := create_episode_upload_gate [showAlice] ⟨[], []⟩ uAlice "show-1"
    "t" "d" "track.MP3" [7] "a1b2c3d4" "e-9" 4 (by decide) (by decide)
  refine ⟨h1.1 (by decide), ?_⟩
  obtain ⟨ep, heq, href, hdist⟩ := h2.2 (by decide)
  exact ⟨ep, heq, href, hdist (by decide)⟩

/-- C6 counterexample: the query `"a.c"` is no substring of any searched
field of `pcAbc` (title `"abc"`, description `"zzz"`, category `"Music"`),
yet `search` returns that show, because the query is fed to the store as a
regular expression in which `.` matches any character. -/
theorem search_substring_counterexample :
    search [pcAbc] [] "a.c" = some ⟨[pcAbc], []⟩
    ∧ specShowPred "a.c" pcAbc = false := by
  decide

/-- C6 amended: for a query inside the embedded regex fragment, `search`
returns exactly the shows whose title, description, or category matches the
query read as a case-insensitive unanchored regular expression, and the
episodes whose title or description does, each list capped at 50. -/
theorem search_regex_semantics (podcasts : List Podcast)
    (episodes : List Episode) (q : String) (pat : List RAtom)
    (hq : parsePat (lowerStr q).data = some pat) :
    ∃ out, search podcasts episodes q = some out
      ∧ out.podcasts.length ≤ 50 ∧ out.episodes.length ≤ 50
      ∧ (∀ p, p ∈ out.podcasts → p ∈ podcasts ∧ podcastPred pat p = true)
      ∧ (∀ e, e ∈ out.episodes → e ∈ episodes ∧ episodePred pat e = true)
      ∧ ((podcasts.filter (podcastPred pat)).length ≤ 50 →
          ∀ p ∈ podcasts, podcastPred pat p = true → p ∈ out.podcasts)
      ∧ ((episodes.filter (episodePred pat)).length ≤ 50 →
          ∀ e ∈ episodes, episodePred pat e = true → e ∈ out.episodes) := by
  refine ⟨{ podcasts := (podcasts.filter (podcastPred pat)).take 50,
            episodes := (episodes.filter (episodePred pat)).take 50 },
    by simp [search, hq], ?_, ?_, ?_, ?_, ?_, ?_⟩
  · rw [List.length_take]; exact Nat.min_le_left _ _
  · rw [List.length_take]; exact Nat.min_le_left _ _
  · exact fun p hp => List.mem_filter.mp (List.take_subset _ _ hp)
  · exact fun e he => List.mem_filter.mp (List.take_subset _ _ he)
  · intro hlen p hp hmatch
    rw [List.take_of_length_le hlen]
    exact List.mem_filter.mpr ⟨hp, hmatch⟩
  · intro hlen e he hmatch
    rw [List.take_of_length_le hlen]
    exact List.mem_filter.mpr ⟨he, hmatch⟩

/-- C6 witness: the query `"tech"` finds `pcTech` through its category
`"Technology"` and excludes `pcAbc` (category `"Music"`). -/
theorem search_regex_semantics_witness :
    ∃ out, search [pcTech, pcAbc] [] "tech" = some out
      ∧ out.podcasts.length ≤ 50 ∧ out.episodes.length ≤ 50
      ∧ (∀ p, p ∈ out.podcasts →
          p ∈ [pcTech, pcAbc]
          ∧ podcastPred [RAtom.lit 't', RAtom.lit 'e', RAtom.lit 'c',
              RAtom.lit 'h'] p = true)
      ∧ (∀ e, e ∈ out.episodes →
          e ∈ ([] : List Episode)
          ∧ episodePred [RAtom.lit 't', RAtom.lit 'e', RAtom.lit 'c',
              RAtom.lit 'h'] e = true)
      ∧ (([pcTech, pcAbc].filter (podcastPred [RAtom.lit 't', RAtom.lit 'e',
              RAtom.lit 'c', RAtom.lit 'h'])).length ≤ 50 →
          ∀ p ∈ [pcTech, pcAbc],
            podcastPred [RAtom.lit 't', RAtom.lit 'e', RAtom.lit 'c',
              RAtom.lit 'h'] p = true → p ∈ out.podcasts)
      ∧ ((([] : List Episode).filter (episodePred [RAtom.lit 't',
              RAtom.lit 'e', RAtom.lit 'c', RAtom.lit 'h'])).length ≤ 50 →
          ∀ e ∈ ([] : List Episode),
            episodePred [RAtom.lit 't', RAtom.lit 'e', RAtom.lit 'c',
              RAtom.lit 'h'] e = true → e ∈ out.episodes) :=
  search_regex_semantics [pcTech, pcAbc] [] "tech"
    [RAtom.lit 't', RAtom.lit 'e', RAtom.lit 'c', RAtom.lit 'h'] (by decide)

/-- C7: `create_podcast` fails with status 403 and leaves the store
unchanged whenever the acting user's role is not podcaster, regardless of
the payload; for a podcaster it persists exactly one new show whose
`creator_id` is the acting user's id. -/
theorem create_podcast_role_gate (podcasts : List Podcast) (u : User)
    (title description category newId : String) (now : Nat) :
    (u.role ≠ "podcaster" →
      create_podcast podcasts u title description category newId now
        = (.error ⟨403, "Only podcasters can create podcasts"⟩, podcasts))
    ∧ (u.role = "podcaster" →
      create_podcast podcasts u title description category newId now
        = (.ok { id := newId, title := title, description := description,
                 creator_id := u.id, cover_image := none,
                 category := category, created_at := now },
           podcasts ++ [({ id := newId, title := title,
                            description := description, creator_id := u.id,
                            cover_image := none, category := category,
                            created_at := now } : Podcast)])) := by
  constructor
  · intro h
    simp [create_podcast, h]
  · intro h
    simp [create_podcast, h]

/-- C7 witness: `uCarol` (a listener) gets 403 with nothing persisted,
`uAlice` (a podcaster) gets a show created under her id. -/
theorem create_podcast_role_gate_witness :
    create_podcast [] uCarol "T" "D" "Music" "id-1" 9
      = (.error ⟨403, "Only podcasters can create podcasts"⟩, [])
    ∧ create_podcast [] uAlice "T" "D" "Music" "id-2" 9
      = (.ok { id := "id-2", title := "T", description := "D",
               creator_id := uAlice.id, cover_image := none,
               category := "Music", created_at := 9 },
         [{ id := "id-2", title := "T", description := "D",
            creator_id := uAlice.id, cover_image := none,
            category := "Music", created_at := 9 }]) :=
  ⟨(create_podcast_role_gate [] uCarol "T" "D" "Music" "id-1" 9).1 (by decide),
   (create_podcast_role_gate [] uAlice "T" "D" "Music" "id-2" 9).2 (by decide)⟩

/-- C8 counterexample: issuing without an explicit ttl at time 1000 yields
expiry 1900, not the 30-minute expiry 1000 + 30·60 the claim states. -/
theorem create_access_token_default_not_thirty :
    (create_access_token (some "alice@example.com") 1000 none).payload.exp
      ≠ 1000 + ACCESS_TOKEN_EXPIRE_MINUTES * 60 := by
  decide

/-- C8 amended: when `create_access_token` is called without an explicit
`expires_delta`, the token's expiry instant is 15 minutes after issuance
(the in-function default is `timedelta(minutes=15)`; the 30-minute
`ACCESS_TOKEN_EXPIRE_MINUTES` is only ever passed explicitly by `login`). -/
theorem create_access_token_default_fifteen (sub : Option String)
    (now : Nat) :
    (create_access_token sub now none).payload.exp = now + 15 * 60 :=
  rfl

/-- C9: a token signed with the right key and not yet expired, but whose
payload has no `"sub"` claim, makes `get_current_user` fail with status 401
rather than resolve any user. -/
theorem get_current_user_missing_sub (users : List User) (tok : Jwt)
    (now : Nat) (hkey : tok.key = SECRET_KEY)
    (hexp : now ≤ tok.payload.exp) (hsub : tok.payload.sub = none) :
    get_current_user users tok now
      = .error ⟨401, "Invalid authentication credentials"⟩ := by
  simp [get_current_user, jwt_decode, hkey, hexp, hsub]

/-- C9 witness: a well-signed, unexpired token with no subject claim is
rejected with 401 even though `uAlice` is stored. -/
theorem get_current_user_missing_sub_witness :
    get_current_user [uAlice]
        { payload := { sub := none, exp := 100 }, key := SECRET_KEY } 50
      = .error ⟨401, "Invalid authentication credentials"⟩ :=
  get_current_user_missing_sub [uAlice]
    { payload := { sub := none, exp := 100 }, key := SECRET_KEY } 50
    rfl (by decide) rfl

/-- The empty pattern matches every text at position 0. -/
theorem patSearch_nil_eq_true (l : List Char) : patSearch [] l = true := by
  cases l <;> simp [patSearch, patMatchHere]

/-- C10: the empty query parses to the empty pattern, which every stored
show and episode satisfies, so `search` answers with the first 50 shows and
first 50 episodes of the entire store. -/
theorem search_empty_query (podcasts : List Podcast)
    (episodes : List Episode) :
    search podcasts episodes "" = some ⟨podcasts.take 50, episodes.take 50⟩
    ∧ podcasts.filter (podcastPred []) = podcasts
    ∧ episodes.filter (episodePred []) = episodes := by
  have hp : podcasts.filter (podcastPred []) = podcasts :=
    List.filter_eq_self.mpr fun p _ => by
      simp [podcastPred, textMatches, patSearch_nil_eq_true]
  have he : episodes.filter (episodePred []) = episodes :=
    List.filter_eq_self.mpr fun e _ => by
      simp [episodePred, textMatches, patSearch_nil_eq_true]
  refine ⟨?_, hp, he⟩
  have hq : parsePat (lowerStr "").data = some [] := rfl
  simp [search, hq, hp, he]

end Backend
